import Mathlib

/-!
# Verification of the intent-classification and command-dispatch pipeline

Shallow embedding of the classify-then-route core of the voice-assistant
repository:

* `FirstLayerDMM` (Backend/Model.py) — the classifier, modelled with the
  remote completion service abstracted as a `ServiceResult` oracle and the
  fuzzy app-name corrector abstracted as a `String → String` parameter
  (its output never influences any property proved here beyond being a
  string spliced into the returned directive).
* `sanitize_automation_cmd`, `handle_url_open`, `handle_dmm_decisions`
  (Main.py) — the directive parser and router, modelled as a pure function
  from the decision list and original utterance to the single
  `RouterAction` the router performs for the cycle.

Python string primitives used by the source (`str.strip`, `str.lower`,
`str.startswith`, `str.split`, `str.replace`, `re.split` on the pattern
used in Model.py, and `urllib.parse.urlparse`'s scheme/netloc/path
extraction) are embedded below on `List Char`.  Case mapping is modelled
on ASCII, which covers every literal the source compares against.
-/

/-- Python `str.isspace` characters relevant to `strip`/`split`
(ASCII whitespace). -/
def pyIsSpace (c : Char) : Bool :=
  c == ' ' || c == '\t' || c == '\n' || c == '\r' || c == '\x0b' || c == '\x0c'

/-- Python `str.strip()` on a character list: remove leading and trailing
whitespace. -/
def pyStripList (l : List Char) : List Char :=
  ((l.dropWhile pyIsSpace).reverse.dropWhile pyIsSpace).reverse

/-- Python `str.strip()`. -/
def pyStrip (s : String) : String := ⟨pyStripList s.data⟩

/-- Python `str.lower()` (ASCII case mapping). -/
def pyLower (s : String) : String := ⟨s.data.map Char.toLower⟩

/-- Python `str.startswith(p)`. -/
def pyStartswith (s p : String) : Bool := p.data.isPrefixOf s.data

/-- Python slicing `s[n:]`. -/
def pyDrop (s : String) (n : Nat) : String := ⟨s.data.drop n⟩

/-- One pass of Python `str.replace(old, new)` (leftmost, non-overlapping),
written with explicit fuel so that the definition is structurally recursive
and kernel-reducible; `fuel = length of the subject` suffices because every
step consumes at least one character (the source only ever calls it with a
non-empty `old`). -/
def replaceListAux (old new : List Char) : Nat → List Char → List Char
  | 0, l => l
  | _ + 1, [] => []
  | fuel + 1, c :: rest =>
    if old ≠ [] ∧ old.isPrefixOf (c :: rest) then
      new ++ replaceListAux old new fuel ((c :: rest).drop old.length)
    else
      c :: replaceListAux old new fuel rest

/-- Python `s.replace(old, new)` for non-empty `old`. -/
def pyReplace (s old new : String) : String :=
  ⟨replaceListAux old.data new.data s.data.length s.data⟩

/-- Splitter for the regex `,\s*|\s{2,}` used by `re.split` in
`FirstLayerDMM`: a comma (with any following whitespace) or a run of two or
more whitespace characters separates tokens; a single whitespace character
does not.  Fuel-structured for kernel reducibility; `fuel = length + 1`
suffices since every recursive call consumes at least one character. -/
def reSplitAux : Nat → List Char → List Char → List (List Char)
  | 0, _, acc => [acc.reverse]
  | _ + 1, [], acc => [acc.reverse]
  | fuel + 1, ',' :: rest, acc =>
    acc.reverse :: reSplitAux fuel (rest.dropWhile pyIsSpace) []
  | fuel + 1, c :: rest, acc =>
    if pyIsSpace c && pyIsSpace (rest.headD 'x') then
      acc.reverse :: reSplitAux fuel (rest.dropWhile pyIsSpace) []
    else
      reSplitAux fuel rest (c :: acc)

/-- Python `re.split(",\\s*|\\s{2,}", s)`. -/
def reSplit (s : String) : List String :=
  (reSplitAux (s.data.length + 1) s.data []).map fun l => ⟨l⟩

/-- Python `str.split()` with no separator: whitespace-run splitting with
empty tokens dropped.  Fuel-structured as above. -/
def splitWsAux : Nat → List Char → List (List Char)
  | 0, _ => []
  | _ + 1, [] => []
  | fuel + 1, c :: rest =>
    if pyIsSpace c then splitWsAux fuel rest
    else
      (c :: rest.takeWhile (fun x => !pyIsSpace x)) ::
        splitWsAux fuel (rest.dropWhile (fun x => !pyIsSpace x))

/-- Python `s.split()`. -/
def pySplitWs (s : String) : List String :=
  (splitWsAux (s.data.length + 1) s.data).map fun l => ⟨l⟩

/-! ## Classifier — Backend/Model.py -/

/-- The outcome of one invocation of the remote completion service:
either the list of streamed `text-generation` fragment texts, or a raised
transport/service exception.  The source's service object is global and the
call takes no attempt-dependent arguments, so a single constant outcome also
models a service that behaves the same on every call. -/
inductive ServiceResult where
  | ok (texts : List String)
  | err
deriving DecidableEq

/-- `FUNC_CATEGORIES` from Model.py. -/
def FUNC_CATEGORIES : List String :=
  ["exit", "general", "realtime", "open", "close", "play",
   "generate image", "system", "content", "google search",
   "youtube search", "reminder"]

/-- `FirstLayerDMM` from Model.py, returning the decision list together with
the number of remote-service invocations it performed.  `svc` abstracts the
remote service; `correct_app_name` abstracts the fuzzy app-name corrector
(fuzzywuzzy + Levenshtein) used only by the `"open "` shortcut.  The
source's `try` block converts any service exception into the error fallback
directive, modelled by the `.err` branch. -/
def FirstLayerDMMAux (svc : ServiceResult) (correct_app_name : String → String)
    (prompt : String) (recursion_depth : Int) : List String × Nat :=
  if recursion_depth = 0 then
    (["general (uncategorized query)"], 0)
  else if pyStartswith (pyLower prompt) "open " then
    (["open ( " ++ correct_app_name (pyStrip (pyDrop prompt 5)) ++ " )"], 0)
  else
    match svc with
    | .err => (["general (error processing query)"], 1)
    | .ok texts =>
      let response_text :=
        pyStrip (pyReplace (String.intercalate " " (texts.map pyStrip)) "\n" " ")
      let response_tasks :=
        ((reSplit response_text).map pyStrip).filter fun t => t ≠ ""
      let response_tasks2 :=
        response_tasks.filter fun t => FUNC_CATEGORIES.any fun f => pyStartswith t f
      let formatted_tasks :=
        response_tasks2.map fun t =>
          pyReplace (String.intercalate " " (pySplitWs t)) "un categor ized" "uncategorized"
      (if formatted_tasks = [] then ["general (uncategorized query)"] else formatted_tasks, 1)

/-- The decision list returned by `FirstLayerDMM`. -/
def FirstLayerDMM (svc : ServiceResult) (correct_app_name : String → String)
    (prompt : String) (recursion_depth : Int) : List String :=
  (FirstLayerDMMAux svc correct_app_name prompt recursion_depth).1

/-- How many remote-service invocations one call of `FirstLayerDMM`
performs. -/
def FirstLayerDMMServiceCalls (svc : ServiceResult) (correct_app_name : String → String)
    (prompt : String) (recursion_depth : Int) : Nat :=
  (FirstLayerDMMAux svc correct_app_name prompt recursion_depth).2

/-! ## Router — Main.py -/

/-- The single externally visible action `handle_dmm_decisions` performs for
one cycle (which handler it invokes, with which argument). -/
inductive RouterAction where
  /-- The early `if EXIT_REQUESTED: return` guard fired. -/
  | noop
  /-- Exit path: goodbye message, `EXIT_REQUESTED` status. -/
  | exitRequested
  /-- `webbrowser.open` on the given URL (inside `handle_url_open`). -/
  | browserOpen (url : String)
  /-- `execute_automation_command` with the given command string. -/
  | automation (cmd : String)
  /-- `handle_image_generation` with the given prompt. -/
  | imageGen (prompt : String)
  /-- `handle_realtime` with the given query. -/
  | realtime (q : String)
  /-- `handle_general` with the given query. -/
  | general (q : String)
deriving DecidableEq

/-- `FUNCTIONS` from Main.py (note the two multi-word entries and the
capitalized `"Youtube"`, kept verbatim from the source). -/
def FUNCTIONS : List String :=
  ["open", "close", "play", "system", "content", "google search", "Youtube"]

/-- `exit_cmds` from `handle_dmm_decisions`. -/
def exit_cmds : List String := ["exit", "quit", "goodbye", "bye", "shutdown"]

/-- `sanitize_automation_cmd` from Main.py: strip, split into the first
whitespace-delimited token (lowercased) and the remainder, delete
parentheses from the remainder and strip it. -/
def sanitize_automation_cmd (cmd : String) : String × String :=
  let s := (pyStrip cmd).data
  let func : String := ⟨(s.takeWhile fun c => !pyIsSpace c).map Char.toLower⟩
  let raw_arg : List Char := (s.dropWhile fun c => !pyIsSpace c).dropWhile pyIsSpace
  (func, pyStrip ⟨raw_arg.filter fun c => !(c == '(' || c == ')')⟩)

/-- Scheme characters per `urllib.parse` (letters, digits, `+`, `-`, `.`). -/
def schemeChar (c : Char) : Bool :=
  c.isAlpha || c.isDigit || c == '+' || c == '-' || c == '.'

/-- The components of `urllib.parse.urlparse` that `handle_url_open`
consults. -/
structure UrlParts where
  scheme : String
  netloc : String
  path : String
deriving DecidableEq

/-- The scheme/netloc/path extraction of `urllib.parse.urlparse`: a scheme
is split off at the first `:` when everything before it is a non-empty run
of scheme characters starting with a letter (and is lowercased); a netloc
follows `//` up to the next `/`, `?` or `#`; the path is what remains
before any fragment or query. -/
def pyUrlparse (url : String) : UrlParts :=
  let cs := url.data
  let before := cs.takeWhile fun c => !(c == ':')
  let hasScheme :=
    decide (before.length < cs.length) && !before.isEmpty &&
      (before.headD '0').isAlpha && before.all schemeChar
  let scheme : List Char := if hasScheme then before.map Char.toLower else []
  let rest := if hasScheme then cs.drop (before.length + 1) else cs
  let hasNetloc := rest.take 2 == ['/', '/']
  let netDelim : Char → Bool := fun c => !(c == '/' || c == '?' || c == '#')
  let netloc : List Char := if hasNetloc then (rest.drop 2).takeWhile netDelim else []
  let rest2 := if hasNetloc then (rest.drop 2).dropWhile netDelim else rest
  let path := (rest2.takeWhile fun c => !(c == '#')).takeWhile fun c => !(c == '?')
  ⟨⟨scheme⟩, ⟨netloc⟩, ⟨path⟩⟩

/-- `handle_url_open` from Main.py: open the argument in a browser when it
has an `http`/`https` scheme or is a scheme-less `www.`-prefixed string;
otherwise fall back to the automation command `open <arg>`. -/
def handle_url_open (arg0 : String) : RouterAction :=
  let arg := pyStrip arg0
  let parsed := pyUrlparse arg
  let is_url :=
    (parsed.scheme = "http" ∨ parsed.scheme = "https") ∨
      (parsed.scheme = "" ∧ pyStartswith (pyLower parsed.path) "www." = true)
  if is_url then
    RouterAction.browserOpen (if parsed.scheme ≠ "" then arg else "https://" ++ arg)
  else
    RouterAction.automation ("open " ++ arg)

/-- The exit test applied to each decision in `handle_dmm_decisions`:
`d.strip().lower() in exit_cmds`. -/
def isExitHit (d : String) : Bool := exit_cmds.contains (pyLower (pyStrip d))

/-- The automation test applied to each decision: the lowercased first
token is a member of `FUNCTIONS`. -/
def isAutoHit (d : String) : Bool := FUNCTIONS.contains (sanitize_automation_cmd d).1

/-- `d.strip().lower().startswith("generate ")`. -/
def isImgHit (d : String) : Bool := pyStartswith (pyLower (pyStrip d)) "generate "

/-- `d.strip().lower().startswith("realtime ")`. -/
def isRtHit (d : String) : Bool := pyStartswith (pyLower (pyStrip d)) "realtime "

/-- `d.strip().lower().startswith("general ")`. -/
def isGenHit (d : String) : Bool := pyStartswith (pyLower (pyStrip d)) "general "

/-- `d.strip()[n:].strip()` — the payload of a matched decision after an
`n`-character keyword. -/
def payloadAfter (d : String) (n : Nat) : String := pyStrip (pyDrop (pyStrip d) n)

/-- The clarification message used when a generate directive has an empty
prompt. -/
def emptyImagePromptMsg : String :=
  "You asked me to generate an image, but didn\x27t provide a description."

/-- `handle_dmm_decisions` from Main.py as a pure routing function: which
handler the router invokes for the given decision list and original query.
Mirrors the source order: `EXIT_REQUESTED` guard, empty-list fallback, exit
scan, first-match automation scan (with the `open` URL special case),
image generation, realtime merge (joiner `" and "`, falling back to the
original query when the merge is empty), general merge (joiner `" "`, same
fallback), and the final general fallback. -/
def handle_dmm_decisions (exit_requested : Bool) (decisions : List String)
    (original_query : String) : RouterAction :=
  if exit_requested then RouterAction.noop
  else if decisions = [] then RouterAction.general original_query
  else if decisions.any isExitHit then RouterAction.exitRequested
  else
    match decisions.find? isAutoHit with
    | some d =>
      let fa := sanitize_automation_cmd d
      if fa.1 = "open" then handle_url_open fa.2 else RouterAction.automation d
    | none =>
      match decisions.filter isImgHit with
      | c :: _ =>
        let prompt := payloadAfter c 9
        if prompt = "" then RouterAction.general emptyImagePromptMsg
        else RouterAction.imageGen prompt
      | [] =>
        let realtime_cmds := decisions.filter isRtHit
        if realtime_cmds ≠ [] then
          let combined :=
            String.intercalate " and " (realtime_cmds.map fun d => payloadAfter d 9)
          RouterAction.realtime (if combined = "" then original_query else combined)
        else
          let general_cmds := decisions.filter isGenHit
          if general_cmds ≠ [] then
            let combined :=
              String.intercalate " " (general_cmds.map fun d => payloadAfter d 8)
            RouterAction.general (if combined = "" then original_query else combined)
          else RouterAction.general original_query

/-! ## Claim theorems -/

/-- Claim C1 (counterexample): a directive whose *category* is `exit` but
whose raw text is not literally one of the exit words does not trigger the
exit path — `["exit (now)", "general (hi)"]` is routed to the general
handler (with the merged general payload), not to `exitRequested`.  The
source's exit scan compares the whole stripped, lowercased directive
against `exit_cmds`, so `exit (now)` never matches. -/
theorem exit_category_not_detected_cex :
    handle_dmm_decisions false ["exit (now)", "general (hi)"] "orig"
      ≠ RouterAction.exitRequested ∧
    handle_dmm_decisions false ["exit (now)", "general (hi)"] "orig"
      = RouterAction.general "(hi)" := by decide

/-- Claim C1 (amended): whenever some directive's stripped, lowercased raw
text equals one of `exit, quit, goodbye, bye, shutdown`, the router takes
only the exit path — it reports `exitRequested` and processes no other
directive in the cycle, even when the list also contains general (or any
other) directives.  A directive with category `exit` but a non-trivial
argument is *not* recognized as an exit request. -/
theorem exit_rawtext_short_circuits (ds : List String) (q : String)
    (h : ds.any isExitHit = true) :
    handle_dmm_decisions false ds q = RouterAction.exitRequested := by
  have hne : ds ≠ [] := by rintro rfl; simp at h
  unfold handle_dmm_decisions
  rw [if_neg (by simp), if_neg hne, if_pos h]

/-- Witness for `exit_rawtext_short_circuits` at a list that contains both
an exit word and a general directive. -/
theorem exit_rawtext_short_circuits_witness :
    (["bye", "general (hi)"].any isExitHit = true) ∧
    handle_dmm_decisions false ["bye", "general (hi)"] "orig"
      = RouterAction.exitRequested :=
  ⟨by decide, exit_rawtext_short_circuits ["bye", "general (hi)"] "orig" (by decide)⟩

/-- Claim C2 (confirmed): for every utterance (including the empty string),
every service outcome, every app-name corrector and every recursion depth,
`FirstLayerDMM` returns a non-empty decision list.  The embedding is a
total function, so it also never raises and never returns null. -/
theorem firstLayerDMM_never_empty (svc : ServiceResult) (corr : String → String)
    (prompt : String) (d : Int) :
    FirstLayerDMM svc corr prompt d ≠ [] := by
  unfold FirstLayerDMM FirstLayerDMMAux
  split
  · simp
  split
  · simp
  split
  · simp
  · dsimp only
    split
    · simp
    · next h => simpa using h

/-- Claim C3 (counterexample): with a service that returns exactly the
clarification placeholder `"(query)"` and `max_retries = 3`, the classifier
performs a single remote call — not three recursive attempts — and
returns the fallback directly: there is no retry recursion in the code. -/
theorem no_retry_on_placeholder_cex :
    FirstLayerDMMServiceCalls (ServiceResult.ok ["(query)"]) (fun s => s) "what is this" 3 = 1 ∧
    FirstLayerDMMServiceCalls (ServiceResult.ok ["(query)"]) (fun s => s) "what is this" 3 ≠ 3 ∧
    FirstLayerDMM (ServiceResult.ok ["(query)"]) (fun s => s) "what is this" 3
      = ["general (uncategorized query)"] := by decide

/-- Claim C3 (amended): `FirstLayerDMM` never recurses.  When the remote
service returns only the placeholder `"(query)"`, the category filter drops
it (it starts with no recognized category keyword), so for any non-zero
`recursion_depth` and any prompt not taking the `"open "` shortcut, the
classifier returns `["general (uncategorized query)"]` after exactly one
service call, never raising.  (`recursion_depth = 0` returns the same
fallback with zero service calls.) -/
theorem placeholder_single_attempt (corr : String → String) (prompt : String) (d : Int)
    (hopen : pyStartswith (pyLower prompt) "open " = false) (hd : d ≠ 0) :
    FirstLayerDMMAux (ServiceResult.ok ["(query)"]) corr prompt d
      = (["general (uncategorized query)"], 1) := by
  unfold FirstLayerDMMAux
  rw [if_neg hd, if_neg (by simp [hopen])]
  rfl

/-- Witness for `placeholder_single_attempt`. -/
theorem placeholder_single_attempt_witness :
    pyStartswith (pyLower "what is this") "open " = false ∧ (3 : Int) ≠ 0 ∧
    FirstLayerDMMAux (ServiceResult.ok ["(query)"]) (fun s => s) "what is this" 3
      = (["general (uncategorized query)"], 1) :=
  ⟨by decide, by decide,
    placeholder_single_attempt (fun s => s) "what is this" 3 (by decide) (by decide)⟩

/-- Claim C4 (counterexample): for
`["realtime (weather in paris)", "realtime (time in tokyo)"]` the router
invokes the realtime handler with
`"(weather in paris) and (time in tokyo)"` — the text after the keyword is
only trimmed, its parentheses are *not* stripped — and not with the
claimed `"weather in paris and time in tokyo"`. -/
theorem realtime_merge_keeps_parens_cex :
    handle_dmm_decisions false
        ["realtime (weather in paris)", "realtime (time in tokyo)"] "orig"
      ≠ RouterAction.realtime "weather in paris and time in tokyo" ∧
    handle_dmm_decisions false
        ["realtime (weather in paris)", "realtime (time in tokyo)"] "orig"
      = RouterAction.realtime "(weather in paris) and (time in tokyo)" := by decide

/-- Claim C4 (amended): the router merges all realtime directives into a
single query by joining, in classifier order, the trimmed *raw* remainder
after the `realtime ` keyword (delimiter parentheses included, when
present) with the literal joiner `" and "`, and dispatches one realtime
call; the claimed argument appears exactly when the raw directives carry
no parentheses. -/
theorem realtime_merge_joiner :
    handle_dmm_decisions false
        ["realtime (weather in paris)", "realtime (time in tokyo)"] "orig"
      = RouterAction.realtime "(weather in paris) and (time in tokyo)" ∧
    handle_dmm_decisions false
        ["realtime weather in paris", "realtime time in tokyo"] "orig"
      = RouterAction.realtime "weather in paris and time in tokyo" := by decide

/-- Claim C5 (code bug): the first-match rule does hold for the reachable
automation categories (`["open (chrome)", "open (notepad)"]` runs exactly
one automation action, for chrome), but the `google_search` and
`youtube_search` categories can never take the automation branch: the
router compares the lowercased *first whitespace-delimited token* of a
directive against `FUNCTIONS`, and the list's own entries
`"google search"` (contains a space) and `"Youtube"` (capitalized) are
unequal to every such token, so `google search (...)`/`youtube search (...)`
directives fall through to the general fallback even though
Backend/Automation.py implements handlers for exactly these commands. -/
theorem google_youtube_automation_unreachable :
    handle_dmm_decisions false ["open (chrome)", "open (notepad)"] "o"
      = RouterAction.automation "open chrome" ∧
    FUNCTIONS.contains "google search" = true ∧
    FUNCTIONS.contains "Youtube" = true ∧
    (sanitize_automation_cmd "google search (mahatma gandhi)").1 = "google" ∧
    (sanitize_automation_cmd "youtube search (lofi mix)").1 = "youtube" ∧
    handle_dmm_decisions false ["google search (mahatma gandhi)"] "orig"
      = RouterAction.general "orig" ∧
    handle_dmm_decisions false ["youtube search (lofi mix)"] "orig"
      = RouterAction.general "orig" := by decide

/-- Claim C6 (counterexample): `open (google.com)` does *not* route to the
direct browser-open path: `urlparse` gives it no scheme and its path does
not start with `www.`, so the router delegates to the OS-automation
adapter.  There is no dotted-domain heuristic in the code. -/
theorem dotted_domain_not_url_cex :
    handle_dmm_decisions false ["open (google.com)"] "o"
      = RouterAction.automation "open google.com" ∧
    pyUrlparse "google.com" = UrlParts.mk "" "" "google.com" := by decide

/-- Claim C6 (amended): for an `open` directive the router opens the
argument directly in a browser exactly when it has an `http`/`https`
scheme, or has no scheme and its path begins (case-insensitively) with
`www.`; hence `open (https://openai.com)` and `open (www.google.com)`
browser-open, while the bare dotted domain `open (google.com)` and
`open (notepad)` go to the OS-automation adapter. -/
theorem url_detection_scheme_or_www :
    handle_dmm_decisions false ["open (https://openai.com)"] "o"
      = RouterAction.browserOpen "https://openai.com" ∧
    handle_dmm_decisions false ["open (www.google.com)"] "o"
      = RouterAction.browserOpen "https://www.google.com" ∧
    handle_dmm_decisions false ["open (google.com)"] "o2"
      = RouterAction.automation "open google.com" ∧
    handle_dmm_decisions false ["open (notepad)"] "o"
      = RouterAction.automation "open notepad" := by decide

/-- Claim C7 (confirmed): if the remote classification call fails (any
transport/service exception, modelled by `ServiceResult.err`), the
classifier returns exactly `["general (error processing query)"]` — for
every prompt that actually reaches the remote call (not the `"open "`
shortcut) and every non-zero recursion depth.  The embedding is total, so
the exception is never propagated to the caller. -/
theorem service_error_fallback (corr : String → String) (prompt : String) (d : Int)
    (hopen : pyStartswith (pyLower prompt) "open " = false) (hd : d ≠ 0) :
    FirstLayerDMM ServiceResult.err corr prompt d
      = ["general (error processing query)"] := by
  unfold FirstLayerDMM FirstLayerDMMAux
  rw [if_neg hd, if_neg (by simp [hopen])]

/-- Witness for `service_error_fallback`. -/
theorem service_error_fallback_witness :
    pyStartswith (pyLower "hello") "open " = false ∧ (3 : Int) ≠ 0 ∧
    FirstLayerDMM ServiceResult.err (fun s => s) "hello" 3
      = ["general (error processing query)"] :=
  ⟨by decide, by decide, service_error_fallback (fun s => s) "hello" 3 (by decide) (by decide)⟩

/-- Claim C8 (counterexample): parsing `"open ( Chrome )"` and
`"open chrome"` does *not* yield equal results: the category is lowercased
but the argument's case is preserved, so the arguments are `"Chrome"` and
`"chrome"` respectively. -/
theorem sanitize_preserves_arg_case_cex :
    sanitize_automation_cmd "open ( Chrome )" ≠ sanitize_automation_cmd "open chrome" ∧
    sanitize_automation_cmd "open ( Chrome )" = ("open", "Chrome") ∧
    sanitize_automation_cmd "open chrome" = ("open", "chrome") := by decide

/-- Claim C8 (amended): parsing `"open ( Chrome )"` and `"open chrome"`
yields the same lowercased category `open`, and arguments that agree up to
case (parentheses and surrounding whitespace are stripped from the
argument, but its case is preserved). -/
theorem sanitize_case_agreement :
    (sanitize_automation_cmd "open ( Chrome )").1
      = (sanitize_automation_cmd "open chrome").1 ∧
    pyLower (sanitize_automation_cmd "open ( Chrome )").2
      = (sanitize_automation_cmd "open chrome").2 := by decide

/-- Claim C9 (confirmed): for every recursion depth `d ≥ 1`,
`FirstLayerDMM` behaves exactly as at depth 1 — same decision list *and*
same number of remote-service calls — because the depth is consulted only
by the immediate-fallback test against 0 and the function never invokes
itself recursively. -/
theorem recursion_depth_irrelevant (svc : ServiceResult) (corr : String → String)
    (prompt : String) (d : Int) (h : 1 ≤ d) :
    FirstLayerDMMAux svc corr prompt d = FirstLayerDMMAux svc corr prompt 1 := by
  unfold FirstLayerDMMAux
  rw [if_neg (by omega : ¬d = 0), if_neg (by norm_num : ¬(1 : Int) = 0)]

/-- Witness for `recursion_depth_irrelevant`. -/
theorem recursion_depth_irrelevant_witness :
    (1 : Int) ≤ 2 ∧
    FirstLayerDMMAux ServiceResult.err (fun s => s) "hi" 2
      = FirstLayerDMMAux ServiceResult.err (fun s => s) "hi" 1 :=
  ⟨by decide, recursion_depth_irrelevant ServiceResult.err (fun s => s) "hi" 2 (by decide)⟩

/-- Claim C10 (confirmed): in the realtime and general merge branches the
dispatched query is the merged argument string unless that string is
empty, in which case the original raw utterance is dispatched instead —
the dispatch equations below contain exactly the source's
`if not combined_query: combined_query = original_query` substitution. -/
theorem empty_merge_uses_original (ds : List String) (q : String)
    (hex : ds.any isExitHit = false)
    (hauto : ds.find? isAutoHit = none)
    (himg : ds.filter isImgHit = []) :
    (ds.filter isRtHit ≠ [] →
      handle_dmm_decisions false ds q =
        RouterAction.realtime
          (if String.intercalate " and " ((ds.filter isRtHit).map fun d => payloadAfter d 9) = ""
           then q
           else String.intercalate " and " ((ds.filter isRtHit).map fun d => payloadAfter d 9))) ∧
    (ds.filter isRtHit = [] → ds.filter isGenHit ≠ [] →
      handle_dmm_decisions false ds q =
        RouterAction.general
          (if String.intercalate " " ((ds.filter isGenHit).map fun d => payloadAfter d 8) = ""
           then q
           else String.intercalate " " ((ds.filter isGenHit).map fun d => payloadAfter d 8))) := by
  constructor
  · intro hrt
    have hne : ds ≠ [] := by rintro rfl; simp at hrt
    unfold handle_dmm_decisions
    rw [if_neg (by simp), if_neg hne, if_neg (by simp [hex])]
    simp only [hauto, himg]
    rw [if_pos hrt]
  · intro hrt hgen
    have hne : ds ≠ [] := by rintro rfl; simp at hgen
    unfold handle_dmm_decisions
    rw [if_neg (by simp), if_neg hne, if_neg (by simp [hex])]
    simp only [hauto, himg]
    rw [if_neg (not_not_intro hrt), if_pos hgen]

/-- Witness for `empty_merge_uses_original` at a one-directive realtime
list. -/
theorem empty_merge_uses_original_witness :
    (["realtime (x)"].any isExitHit = false) ∧
    (["realtime (x)"].find? isAutoHit = none) ∧
    (["realtime (x)"].filter isImgHit = []) ∧
    (["realtime (x)"].filter isRtHit ≠ []) ∧
    handle_dmm_decisions false ["realtime (x)"] "o" =
      RouterAction.realtime
        (if String.intercalate " and "
              ((["realtime (x)"].filter isRtHit).map fun d => payloadAfter d 9) = ""
         then "o"
         else String.intercalate " and "
              ((["realtime (x)"].filter isRtHit).map fun d => payloadAfter d 9)) :=
  ⟨by decide, by decide, by decide, by decide,
    (empty_merge_uses_original ["realtime (x)"] "o" (by decide) (by decide) (by decide)).1
      (by decide)⟩
